import Mathlib

/-!
Verification of the silent-exception-detection tool
(`tools/check_silent_exceptions.py`).

The development shallowly embeds the tool: a fragment of the Python
abstract syntax tree, the `SilentExceptionVisitor` traversal with its four
detection predicates, the deep recovery-signal search
(`_has_logging_or_reraise`), snippet extraction, per-file analysis with
parse-failure isolation, issue aggregation, report rendering, and the
dispatch of `main` over the output modes.  All definitions are translated
from the Python source; definitions that exist only to state specification
properties (such as the list of handler occurrences of a tree) are marked
as such in their doc comments.
-/

set_option linter.unusedVariables false

namespace SilentExc

/-- Embedding of the `SilentExceptionIssue` named tuple: one finding. -/
structure SilentExceptionIssue where
  file_path : String
  line_number : Nat
  column : Nat
  issue_type : String
  description : String
  code_snippet : Option String
deriving DecidableEq, Repr

/-! ## Syntax-tree fragment

A fragment of the Python AST sufficient for the analyzed patterns:
names, attribute accesses, calls, constants, lambdas, comprehensions;
expression statements, `pass`, `raise`, `return`, assignments, `if`,
`while`, `for`, function definitions and `try` statements with exception
handlers.  Lists and the optional handler filter are represented by
dedicated mutual types so that structural recursion stays simple. -/

mutual

inductive Expr where
  | name (id : String)
  | attr (value : Expr) (attrName : String)
  | call (func : Expr) (args : ExprList)
  | const
  | lam (body : Expr)
  | listComp (elt : Expr) (iters : ExprList)

inductive ExprList where
  | nil
  | cons (head : Expr) (tail : ExprList)

inductive OptExpr where
  | none
  | some (e : Expr)

inductive Stmt where
  | exprStmt (e : Expr)
  | pass
  | raiseStmt (exc : OptExpr)
  | ret (value : OptExpr)
  | assign (target : Expr) (value : Expr)
  | ifStmt (test : Expr) (body orelse : StmtList)
  | whileStmt (test : Expr) (body orelse : StmtList)
  | forStmt (target iter : Expr) (body orelse : StmtList)
  | funcDef (fname : String) (body : StmtList)
  | tryStmt (body : StmtList) (handlers : HandlerList) (orelse finalbody : StmtList)

inductive StmtList where
  | nil
  | cons (head : Stmt) (tail : StmtList)

inductive Handler where
  | mk (lineno : Nat) (colOffset : Nat) (filterTy : OptExpr) (body : StmtList)

inductive HandlerList where
  | nil
  | cons (head : Handler) (tail : HandlerList)

end

deriving instance DecidableEq for Expr, ExprList, OptExpr, Stmt, StmtList, Handler, HandlerList

/-! ## Snippet extraction (`_get_code_snippet`) -/

/-- Python `str.rstrip()`: drop trailing whitespace. -/
def rstrip (s : String) : String :=
  String.mk ((s.toList.reverse.dropWhile Char.isWhitespace).reverse)

/-- The Python format item `{n:3d}`: right-align in width 3. -/
def padNum3 (n : Nat) : String :=
  if n < 10 then "  " ++ toString n
  else if n < 100 then " " ++ toString n
  else toString n

/-- Embedding of `_get_code_snippet` (with the default `context_lines = 2`):
two lines of context on either side, the offending line marked. -/
def getCodeSnippet (sourceLines : List String) (lineNum : Nat) : String :=
  let start := lineNum - 3
  let stop := min sourceLines.length (lineNum + 2)
  let fmt := fun (i : Nat) =>
    let marker := if i = lineNum - 1 then ">>> " else "    "
    marker ++ padNum3 (i + 1) ++ ": " ++ rstrip (sourceLines.getD i "")
  String.intercalate "\n" (((List.range (stop - start)).map (fun k => start + k)).map fmt)

/-! ## The deep recovery-signal search (`_has_logging_or_reraise`)

`ast.walk` visits every node of the handler subtree; the search succeeds
when any node is a call of an attribute named `debug`/`info`/`warning`/
`error`/`critical`/`exception`, a call of the bare name `print`, a
`raise` statement, or a `return` statement. -/

def loggingAttrNames : List String :=
  ["debug", "info", "warning", "error", "critical", "exception"]

/-- The per-node check applied by `_has_logging_or_reraise` to a call
expression: is its function an attribute with a logging name, or the bare
name `print`? -/
def isSignalCall (func : Expr) : Bool :=
  match func with
  | .attr _ a => a ∈ loggingAttrNames
  | .name id => id == "print"
  | _ => false

mutual

def exprHasSignal : Expr → Bool
  | .name _ => false
  | .attr v _ => exprHasSignal v
  | .call f args => isSignalCall f || exprHasSignal f || exprListHasSignal args
  | .const => false
  | .lam b => exprHasSignal b
  | .listComp e its => exprHasSignal e || exprListHasSignal its

def exprListHasSignal : ExprList → Bool
  | .nil => false
  | .cons e es => exprHasSignal e || exprListHasSignal es

def optExprHasSignal : OptExpr → Bool
  | .none => false
  | .some e => exprHasSignal e

def stmtHasSignal : Stmt → Bool
  | .exprStmt e => exprHasSignal e
  | .pass => false
  | .raiseStmt _ => true
  | .ret _ => true
  | .assign t v => exprHasSignal t || exprHasSignal v
  | .ifStmt c b o => exprHasSignal c || stmtListHasSignal b || stmtListHasSignal o
  | .whileStmt c b o => exprHasSignal c || stmtListHasSignal b || stmtListHasSignal o
  | .forStmt t it b o =>
      exprHasSignal t || exprHasSignal it || stmtListHasSignal b || stmtListHasSignal o
  | .funcDef _ b => stmtListHasSignal b
  | .tryStmt b hs o f =>
      stmtListHasSignal b || handlerListHasSignal hs ||
      stmtListHasSignal o || stmtListHasSignal f

def stmtListHasSignal : StmtList → Bool
  | .nil => false
  | .cons s ss => stmtHasSignal s || stmtListHasSignal ss

def handlerHasSignal : Handler → Bool
  | .mk _ _ t b => optExprHasSignal t || stmtListHasSignal b

def handlerListHasSignal : HandlerList → Bool
  | .nil => false
  | .cons h hs => handlerHasSignal h || handlerListHasSignal hs

end

/-- Embedding of `_has_logging_or_reraise`: walk the whole handler subtree
(filter expression and body) looking for a recovery signal.  The handler
node itself and bare names are never signals, so the walk reduces to the
recursive search over the children. -/
def hasLoggingOrReraise (h : Handler) : Bool := handlerHasSignal h

/-! ## The per-handler predicates -/

/-- Embedding of `_is_empty_handler`: `len(node.body) == 0`. -/
def isEmptyHandler : Handler → Bool
  | .mk _ _ _ body =>
    match body with
    | .nil => true
    | _ => false

/-- Embedding of `_is_pass_only_handler`: exactly one statement and it is
`pass`. -/
def isPassOnlyHandler : Handler → Bool
  | .mk _ _ _ body =>
    match body with
    | .cons .pass .nil => true
    | _ => false

/-- Embedding of `_is_silent_handler`. -/
def isSilentHandler (h : Handler) : Bool :=
  isEmptyHandler h || isPassOnlyHandler h || !(hasLoggingOrReraise h)

/-- The first if/elif group of `visit_ExceptHandler` (lines 42-63): the
bare-except check and the broad-exception check on the declared filter. -/
def typeCheckIssues (fp : String) (sourceLines : List String) (h : Handler) :
    List SilentExceptionIssue :=
  match h with
  | .mk lineNum col ty body =>
    match ty with
    | .none =>
      [{ file_path := fp, line_number := lineNum, column := col,
         issue_type := "bare_except",
         description := "Bare \x27except:\x27 clause catches all exceptions",
         code_snippet := Option.some (getCodeSnippet sourceLines lineNum) }]
    | .some e =>
      match e with
      | .name id =>
        if id ∈ ["Exception", "BaseException"] then
          if isSilentHandler (.mk lineNum col ty body) then
            [{ file_path := fp, line_number := lineNum, column := col,
               issue_type := "broad_exception",
               description := "Broad \x27" ++ id ++ "\x27 catch with silent handling",
               code_snippet := Option.some (getCodeSnippet sourceLines lineNum) }]
          else []
        else []
      | _ => []

/-- The second if/elif group of `visit_ExceptHandler` (lines 66-85): the
empty-body check and the pass-only check. -/
def bodyCheckIssues (fp : String) (sourceLines : List String) (h : Handler) :
    List SilentExceptionIssue :=
  match h with
  | .mk lineNum col ty body =>
    if isEmptyHandler (.mk lineNum col ty body) then
      [{ file_path := fp, line_number := lineNum, column := col,
         issue_type := "empty_except",
         description := "Empty except block - exceptions are silently ignored",
         code_snippet := Option.some (getCodeSnippet sourceLines lineNum) }]
    else if isPassOnlyHandler (.mk lineNum col ty body) then
      [{ file_path := fp, line_number := lineNum, column := col,
         issue_type := "pass_only",
         description := "Exception handler only contains \x27pass\x27 statement",
         code_snippet := Option.some (getCodeSnippet sourceLines lineNum) }]
    else []

/-- The check part of `visit_ExceptHandler`: the issues appended for the
visited handler node itself (lines 38-85 of the source), in order. -/
def checkHandler (fp : String) (sourceLines : List String) (h : Handler) :
    List SilentExceptionIssue :=
  typeCheckIssues fp sourceLines h ++ bodyCheckIssues fp sourceLines h

/-! ## The traversal (`SilentExceptionVisitor`)

`ast.NodeVisitor.visit` dispatches `visit_ExceptHandler` on handler nodes
and `generic_visit` (visit every child, in field order) everywhere else;
`visit_ExceptHandler` runs the checks and then calls `generic_visit` on
the handler, so the issue list grows in pre-order. -/

mutual

def visitExpr (fp : String) (sl : List String) : Expr → List SilentExceptionIssue
  | .name _ => []
  | .attr v _ => visitExpr fp sl v
  | .call f args => visitExpr fp sl f ++ visitExprList fp sl args
  | .const => []
  | .lam b => visitExpr fp sl b
  | .listComp e its => visitExpr fp sl e ++ visitExprList fp sl its

def visitExprList (fp : String) (sl : List String) : ExprList → List SilentExceptionIssue
  | .nil => []
  | .cons e es => visitExpr fp sl e ++ visitExprList fp sl es

def visitOptExpr (fp : String) (sl : List String) : OptExpr → List SilentExceptionIssue
  | .none => []
  | .some e => visitExpr fp sl e

def visitStmt (fp : String) (sl : List String) : Stmt → List SilentExceptionIssue
  | .exprStmt e => visitExpr fp sl e
  | .pass => []
  | .raiseStmt e => visitOptExpr fp sl e
  | .ret v => visitOptExpr fp sl v
  | .assign t v => visitExpr fp sl t ++ visitExpr fp sl v
  | .ifStmt c b o => visitExpr fp sl c ++ visitStmtList fp sl b ++ visitStmtList fp sl o
  | .whileStmt c b o => visitExpr fp sl c ++ visitStmtList fp sl b ++ visitStmtList fp sl o
  | .forStmt t it b o =>
      visitExpr fp sl t ++ visitExpr fp sl it ++
      visitStmtList fp sl b ++ visitStmtList fp sl o
  | .funcDef _ b => visitStmtList fp sl b
  | .tryStmt b hs o f =>
      visitStmtList fp sl b ++ visitHandlerList fp sl hs ++
      visitStmtList fp sl o ++ visitStmtList fp sl f

def visitStmtList (fp : String) (sl : List String) : StmtList → List SilentExceptionIssue
  | .nil => []
  | .cons s ss => visitStmt fp sl s ++ visitStmtList fp sl ss

def visitHandler (fp : String) (sl : List String) : Handler → List SilentExceptionIssue
  | .mk l c t b =>
      checkHandler fp sl (.mk l c t b) ++
      (visitOptExpr fp sl t ++ visitStmtList fp sl b)

def visitHandlerList (fp : String) (sl : List String) : HandlerList → List SilentExceptionIssue
  | .nil => []
  | .cons h hs => visitHandler fp sl h ++ visitHandlerList fp sl hs

end

/-- The full analysis of a parsed module: `visitor.visit(tree)` on a
`Module` node generically visits its statement list. -/
def visitModule (fp : String) (sl : List String) (body : StmtList) :
    List SilentExceptionIssue :=
  visitStmtList fp sl body

/-! ## Handler occurrences of a tree

Specification-side enumeration (not part of the Python source): the list
of exception-handler nodes occurring in a tree, in the pre-order in which
the visitor reaches them.  Used to state that the visitor classifies every
handler occurrence exactly once. -/

mutual

def exprHandlers : Expr → List Handler
  | .name _ => []
  | .attr v _ => exprHandlers v
  | .call f args => exprHandlers f ++ exprListHandlers args
  | .const => []
  | .lam b => exprHandlers b
  | .listComp e its => exprHandlers e ++ exprListHandlers its

def exprListHandlers : ExprList → List Handler
  | .nil => []
  | .cons e es => exprHandlers e ++ exprListHandlers es

def optExprHandlers : OptExpr → List Handler
  | .none => []
  | .some e => exprHandlers e

def stmtHandlers : Stmt → List Handler
  | .exprStmt e => exprHandlers e
  | .pass => []
  | .raiseStmt e => optExprHandlers e
  | .ret v => optExprHandlers v
  | .assign t v => exprHandlers t ++ exprHandlers v
  | .ifStmt c b o => exprHandlers c ++ stmtListHandlers b ++ stmtListHandlers o
  | .whileStmt c b o => exprHandlers c ++ stmtListHandlers b ++ stmtListHandlers o
  | .forStmt t it b o =>
      exprHandlers t ++ exprHandlers it ++ stmtListHandlers b ++ stmtListHandlers o
  | .funcDef _ b => stmtListHandlers b
  | .tryStmt b hs o f =>
      stmtListHandlers b ++ handlerListHandlers hs ++
      stmtListHandlers o ++ stmtListHandlers f

def stmtListHandlers : StmtList → List Handler
  | .nil => []
  | .cons s ss => stmtHandlers s ++ stmtListHandlers ss

def handlerHandlers : Handler → List Handler
  | .mk l c t b => .mk l c t b :: (optExprHandlers t ++ stmtListHandlers b)

def handlerListHandlers : HandlerList → List Handler
  | .nil => []
  | .cons h hs => handlerHandlers h ++ handlerListHandlers hs

end

/-- Run the per-node checks over a list of handler occurrences, in order. -/
def checkAll (fp : String) (sl : List String) : List Handler → List SilentExceptionIssue
  | [] => []
  | h :: t => checkHandler fp sl h ++ checkAll fp sl t

/-! ## Aggregation -/

/-- The `by_file` dictionary of `format_issue_report`, as a map from path
to the issues carrying that path, in collection order. -/
def groupByFile (issues : List SilentExceptionIssue) (p : String) :
    List SilentExceptionIssue :=
  issues.filter (fun i => i.file_path == p)

/-- Ordering of paths used by Python `sorted` over strings. -/
def pathLe (a b : String) : Prop := a ≤ b

instance : DecidableRel pathLe := fun a b => inferInstanceAs (Decidable (a ≤ b))
instance : IsTotal String pathLe := ⟨fun a b => le_total a b⟩
instance : IsTrans String pathLe := ⟨fun _ _ _ => le_trans⟩
instance : IsAntisymm String pathLe := ⟨fun _ _ => le_antisymm⟩

/-- Python `sorted(list(set(l)))`: the sorted list of the distinct
elements of `l`. -/
def sortedDedup (l : List String) : List String :=
  List.insertionSort pathLe l.dedup

/-- Embedding of `get_files_with_issues`: the sorted, deduplicated list of
paths of files carrying at least one issue. -/
def getFilesWithIssues (issues : List SilentExceptionIssue) : List String :=
  sortedDedup (issues.map (fun i => i.file_path))

/-- Number of issues of a given issue type (one entry of the summary
dictionaries built by `format_issue_report` and the JSON mode). -/
def countIssueType (t : String) (issues : List SilentExceptionIssue) : Nat :=
  (issues.filter (fun i => i.issue_type == t)).length

/-- Does the list contain an issue of the given type? -/
def hasIssueType (t : String) (issues : List SilentExceptionIssue) : Bool :=
  issues.any (fun i => i.issue_type == t)

/-- Key ordering used by `sorted(file_issues, key=lambda x: x.line_number)`. -/
def lineLe (a b : SilentExceptionIssue) : Prop := a.line_number ≤ b.line_number

instance : DecidableRel lineLe := fun a b => Nat.decLe _ _
instance : IsTotal SilentExceptionIssue lineLe := ⟨fun a b => Nat.le_total _ _⟩
instance : IsTrans SilentExceptionIssue lineLe := ⟨fun _ _ _ => Nat.le_trans⟩

/-- Python `sorted(issues, key=line_number)`: a stable sort by line. -/
def sortByLine (issues : List SilentExceptionIssue) : List SilentExceptionIssue :=
  List.insertionSort lineLe issues

/-! ## Report rendering (`format_issue_report`) -/

/-- The report lines produced for one issue: the headline, the optional
snippet block, and the trailing blank line. -/
def issueLines (showSnippets : Bool) (i : SilentExceptionIssue) : List String :=
  ("  Line " ++ toString i.line_number ++ ": " ++ i.description ++
      " [" ++ i.issue_type ++ "]")
  :: ((match i.code_snippet with
       | Option.some sn =>
         if showSnippets && !(sn == "") then
           "  Code:" :: (sn.splitOn "\n").map (fun l => "    " ++ l)
         else []
       | Option.none => [])
  ++ [""])

/-- The report lines for one file: header, underline, and the file's
issues sorted by line. -/
def fileSection (showSnippets : Bool) (issues : List SilentExceptionIssue)
    (p : String) : List String :=
  ("📁 " ++ p)
  :: String.mk (List.replicate p.length (Char.ofNat 61))
  :: ((sortByLine (groupByFile issues p)).map (issueLines showSnippets)).flatten

/-- The summary block: each issue type with its count, sorted by type. -/
def summarySection (issues : List SilentExceptionIssue) : List String :=
  "📊 Issue Summary:"
  :: (sortedDedup (issues.map (fun i => i.issue_type))).map
       (fun t => "  " ++ t ++ ": " ++ toString (countIssueType t issues))

/-- Embedding of `format_issue_report`: the full rendered report. -/
def formatIssueReport (issues : List SilentExceptionIssue)
    (showSnippets : Bool) : String :=
  if issues.length = 0 then "✅ No silent exception handling issues found!"
  else
    String.intercalate "\n"
      (("🚨 Found " ++ toString issues.length ++
          " silent exception handling issues:\n")
       :: (((getFilesWithIssues issues).map
             (fun p => fileSection showSnippets issues p ++ [""])).flatten
           ++ summarySection issues))

/-- The sequence of issues in the order they appear in the rendered
report: files sorted by path, and each file's issues sorted by line. -/
def renderedOrder (issues : List SilentExceptionIssue) :
    List SilentExceptionIssue :=
  ((getFilesWithIssues issues).map
    (fun p => sortByLine (groupByFile issues p))).flatten

/-- The lexicographic (file path, line number) order the report promises. -/
def pathLineOrder (i j : SilentExceptionIssue) : Prop :=
  i.file_path < j.file_path ∨
  (i.file_path = j.file_path ∧ i.line_number ≤ j.line_number)

/-! ## Per-file analysis (`analyze_file`, `analyze_directory`) -/

/-- Outcome of the parsing collaborator (`ast.parse`): a module body, or a
syntax failure with its message. -/
inductive ParseOutcome where
  | ok (body : StmtList)
  | failed (msg : String)
deriving DecidableEq

/-- One input file: its path, its source split into lines, and the parse
outcome of its text. -/
structure FileInput where
  path : String
  sourceLines : List String
  parsed : ParseOutcome
deriving DecidableEq

/-- Embedding of `analyze_file`: on a successful parse run the visitor; on
a syntax failure emit the diagnostic on the error stream and return no
issues.  Result: (issues, error-stream lines). -/
def analyzeFile (f : FileInput) : List SilentExceptionIssue × List String :=
  match f.parsed with
  | .ok body => (visitModule f.path f.sourceLines body, [])
  | .failed msg => ([], ["Syntax error in " ++ f.path ++ ": " ++ msg])

/-- Embedding of the loop of `analyze_directory`: analyze each file and
concatenate the issues (and the diagnostics, in order). -/
def analyzeBatch : List FileInput → List SilentExceptionIssue × List String
  | [] => ([], [])
  | f :: rest =>
    ((analyzeFile f).1 ++ (analyzeBatch rest).1,
     (analyzeFile f).2 ++ (analyzeBatch rest).2)

/-! ## The command-line entry point (`main`) -/

/-- The output-mode flags of the command line. -/
structure CliArgs where
  noSnippets : Bool
  jsonMode : Bool
  filesOnly : Bool
  parallelFix : Bool
deriving DecidableEq

/-- First-occurrence deduplication, mirroring the key order of the Python
summary dictionary built in the JSON mode. -/
def dedupFirstAux (seen : List String) : List String → List String
  | [] => []
  | x :: xs =>
    if x ∈ seen then dedupFirstAux seen xs
    else x :: dedupFirstAux (x :: seen) xs

def dedupFirst (l : List String) : List String := dedupFirstAux [] l

/-- The JSON result object assembled by `main` under `--json`. -/
structure JsonResult where
  issues : List SilentExceptionIssue
  total_count : Nat
  files_with_issues : List String
  files_count : Nat
  summary : List (String × Nat)
deriving DecidableEq

def buildJsonResult (issues : List SilentExceptionIssue) : JsonResult :=
  { issues := issues
    total_count := issues.length
    files_with_issues := getFilesWithIssues issues
    files_count := (getFilesWithIssues issues).length
    summary := (dedupFirst (issues.map (fun i => i.issue_type))).map
      (fun t => (t, countIssueType t issues)) }

/-- The lines printed under `--parallel-fix` (lines 292-307 of the
source): header, affected files, then the recommendation block chosen by
the affected-file count. -/
def parallelFixLines (issues : List SilentExceptionIssue) : List String :=
  let files := getFilesWithIssues issues
  ("Found " ++ toString issues.length ++ " issues in " ++
      toString files.length ++ " files:")
  :: (files.map (fun f => "  " ++ f)
      ++ (if files.length > 5 then
            ["\n🚀 Parallel fix recommended for " ++ toString files.length ++ " files",
             "Execute with parallel agents for faster fixing"]
          else if files.length > 0 then
            ["\n✅ Sequential fix recommended for " ++ toString files.length ++ " files",
             "Small number of files can be fixed sequentially"]
          else ["\n✅ No files need fixing!"]))

/-- What `main` writes before terminating, by mode. -/
inductive MainOutput where
  | filesOnlyOut (files : List String)
  | parallelFixOut (lines : List String)
  | jsonOut (r : JsonResult)
  | reportOut (text : String)
deriving DecidableEq

/-- Embedding of the dispatch at the end of `main` (lines 286-330): the
emitted output and the argument of `sys.exit`, for the issues found by the
analysis. -/
def runMain (args : CliArgs) (issues : List SilentExceptionIssue) :
    MainOutput × Nat :=
  if args.filesOnly then (.filesOnlyOut (getFilesWithIssues issues), issues.length)
  else if args.parallelFix then (.parallelFixOut (parallelFixLines issues), issues.length)
  else if args.jsonMode then (.jsonOut (buildJsonResult issues), issues.length)
  else (.reportOut (formatIssueReport issues (!args.noSnippets)), issues.length)

/-- Whether a handler's declared filter is literally the name `Exception`
or `BaseException` (the guard of the broad-exception branch). -/
def broadFilterName : Handler → Bool
  | .mk _ _ (.some (.name id)) _ => id == "Exception" || id == "BaseException"
  | _ => false

/-- Character at an index of a string, used to separate distinct literals. -/
def charAt (s : String) (k : Nat) : Option Char := (s.data.drop k).head?

/-! ## Basic helper lemmas -/

theorem strDataAppend (s t : String) : (s ++ t).data = s.data ++ t.data := by
  cases s; cases t; rfl

theorem ne_of_charAt_ne (s t : String) (k : Nat) (c d : Char)
    (hs : charAt s k = Option.some c) (ht : charAt t k = Option.some d)
    (hcd : c ≠ d) : s ≠ t := by
  intro h
  rw [h, ht] at hs
  exact hcd (Option.some.inj hs).symm

theorem checkAll_append (fp : String) (sl : List String) (xs ys : List Handler) :
    checkAll fp sl (xs ++ ys) = checkAll fp sl xs ++ checkAll fp sl ys := by
  induction xs with
  | nil => simp [checkAll]
  | cons h t ih => simp [checkAll, ih]

theorem hasIssueType_append (t : String) (xs ys : List SilentExceptionIssue) :
    hasIssueType t (xs ++ ys) = (hasIssueType t xs || hasIssueType t ys) := by
  simp [hasIssueType, List.any_append]

theorem hasIssueType_singleton (t : String) (i : SilentExceptionIssue) :
    hasIssueType t [i] = (i.issue_type == t) := by
  simp [hasIssueType]

theorem countIssueType_append (t : String) (xs ys : List SilentExceptionIssue) :
    countIssueType t (xs ++ ys) = countIssueType t xs + countIssueType t ys := by
  simp [countIssueType, List.filter_append]

theorem countIssueType_singleton (t : String) (i : SilentExceptionIssue) :
    countIssueType t [i] = if i.issue_type = t then 1 else 0 := by
  by_cases h : i.issue_type = t
  · have hb : (i.issue_type == t) = true := beq_iff_eq.mpr h
    simp [countIssueType, List.filter, hb, h]
  · have hb : (i.issue_type == t) = false := beq_eq_false_iff_ne.mpr h
    simp [countIssueType, List.filter, hb, h]

/-- Shape of the filter-check block: empty, or one bare/broad issue. -/
theorem typeCheckIssues_shape (fp : String) (sl : List String) (h : Handler) :
    typeCheckIssues fp sl h = [] ∨ ∃ i, typeCheckIssues fp sl h = [i] ∧
      (i.issue_type = "bare_except" ∨ i.issue_type = "broad_exception") := by
  cases h with
  | mk l c t b =>
    cases t with
    | none => exact Or.inr ⟨_, rfl, Or.inl rfl⟩
    | some e =>
      cases e with
      | name id =>
        by_cases hid : id ∈ ["Exception", "BaseException"]
        · by_cases hs : isSilentHandler (.mk l c (.some (.name id)) b)
          · have heq : typeCheckIssues fp sl (.mk l c (.some (.name id)) b) =
                [{ file_path := fp, line_number := l, column := c,
                   issue_type := "broad_exception",
                   description := "Broad \x27" ++ id ++ "\x27 catch with silent handling",
                   code_snippet := Option.some (getCodeSnippet sl l) }] := by
              simp [typeCheckIssues, hid, hs]
            exact Or.inr ⟨_, heq, Or.inr rfl⟩
          · left; simp [typeCheckIssues, hid, hs]
        · left; simp [typeCheckIssues, hid]
      | attr v a => exact Or.inl rfl
      | call f args => exact Or.inl rfl
      | const => exact Or.inl rfl
      | lam bd => exact Or.inl rfl
      | listComp e its => exact Or.inl rfl

/-- Shape of the body-check block: empty, or one empty/pass issue. -/
theorem bodyCheckIssues_shape (fp : String) (sl : List String) (h : Handler) :
    bodyCheckIssues fp sl h = [] ∨ ∃ i, bodyCheckIssues fp sl h = [i] ∧
      (i.issue_type = "empty_except" ∨ i.issue_type = "pass_only") := by
  cases h with
  | mk l c t b =>
    by_cases he : isEmptyHandler (.mk l c t b)
    · have heq : bodyCheckIssues fp sl (.mk l c t b) =
          [{ file_path := fp, line_number := l, column := c,
             issue_type := "empty_except",
             description := "Empty except block - exceptions are silently ignored",
             code_snippet := Option.some (getCodeSnippet sl l) }] := by
        simp [bodyCheckIssues, he]
      exact Or.inr ⟨_, heq, Or.inl rfl⟩
    · by_cases hp : isPassOnlyHandler (.mk l c t b)
      · have heq : bodyCheckIssues fp sl (.mk l c t b) =
            [{ file_path := fp, line_number := l, column := c,
               issue_type := "pass_only",
               description := "Exception handler only contains \x27pass\x27 statement",
               code_snippet := Option.some (getCodeSnippet sl l) }] := by
          simp [bodyCheckIssues, he, hp]
        exact Or.inr ⟨_, heq, Or.inr rfl⟩
      · left; simp [bodyCheckIssues, he, hp]

theorem checkHandler_eq (fp : String) (sl : List String) (h : Handler) :
    checkHandler fp sl h = typeCheckIssues fp sl h ++ bodyCheckIssues fp sl h := rfl

/-! ## Claim theorems: per-handler invariants -/

/-- C3: for every exception-handler node, an `EmptyExcept` issue and a
`PassOnly` issue are never both emitted for that node: a zero-statement
body cannot also be a one-statement body. -/
theorem empty_and_pass_never_co_occur (fp : String) (sl : List String)
    (h : Handler) :
    (hasIssueType "empty_except" (checkHandler fp sl h) &&
      hasIssueType "pass_only" (checkHandler fp sl h)) = false := by
  rw [checkHandler_eq, hasIssueType_append, hasIssueType_append]
  rcases typeCheckIssues_shape fp sl h with ht | ⟨i, ht, hti | hti⟩ <;>
    rcases bodyCheckIssues_shape fp sl h with hb | ⟨j, hb, hbj | hbj⟩ <;>
      simp_all [hasIssueType_singleton, hasIssueType]

/-- C10: for every exception-handler node, `BareExcept` and
`BroadException` are never both emitted (a handler with no declared filter
is never classified as a broad catch), and together with the empty/pass
exclusion the node yields at most two issues. -/
theorem bare_and_broad_never_co_occur (fp : String) (sl : List String)
    (h : Handler) :
    (hasIssueType "bare_except" (checkHandler fp sl h) &&
      hasIssueType "broad_exception" (checkHandler fp sl h)) = false ∧
    (checkHandler fp sl h).length ≤ 2 := by
  constructor
  · rw [checkHandler_eq, hasIssueType_append, hasIssueType_append]
    rcases typeCheckIssues_shape fp sl h with ht | ⟨i, ht, hti | hti⟩ <;>
      rcases bodyCheckIssues_shape fp sl h with hb | ⟨j, hb, hbj | hbj⟩ <;>
        simp_all [hasIssueType_singleton, hasIssueType]
  · rw [checkHandler_eq, List.length_append]
    rcases typeCheckIssues_shape fp sl h with ht | ⟨i, ht, _⟩ <;>
      rcases bodyCheckIssues_shape fp sl h with hb | ⟨j, hb, _⟩ <;>
        simp [ht, hb]

/-- C4: every handler node occurring in a syntax tree yields between 0 and
4 issues, and never more than one issue per issue type. -/
theorem handler_yields_bounded_issues (fp : String) (sl : List String)
    (m : StmtList) (h : Handler) (hm : h ∈ stmtListHandlers m) :
    (checkHandler fp sl h).length ≤ 4 ∧
      ∀ t, countIssueType t (checkHandler fp sl h) ≤ 1 := by
  constructor
  · rw [checkHandler_eq, List.length_append]
    rcases typeCheckIssues_shape fp sl h with ht | ⟨i, ht, _⟩ <;>
      rcases bodyCheckIssues_shape fp sl h with hb | ⟨j, hb, _⟩ <;>
        simp [ht, hb]
  · intro t
    rw [checkHandler_eq, countIssueType_append]
    rcases typeCheckIssues_shape fp sl h with ht | ⟨i, ht, hti⟩ <;>
      rcases bodyCheckIssues_shape fp sl h with hb | ⟨j, hb, hbj⟩
    · simp [ht, hb, countIssueType]
    · rw [ht, hb, countIssueType_singleton]
      simp only [countIssueType, List.filter_nil, List.length_nil]
      split <;> omega
    · rw [ht, hb, countIssueType_singleton]
      simp only [countIssueType, List.filter_nil, List.length_nil]
      split <;> omega
    · rw [ht, hb, countIssueType_singleton, countIssueType_singleton]
      by_cases h1 : i.issue_type = t
      · have h2 : j.issue_type ≠ t := by
          rcases hti with hA | hA <;> rcases hbj with hB | hB <;>
            (rw [hA] at h1; rw [hB, ← h1]; decide)
        simp [h1, h2]
      · simp [h1]
        split <;> omega

/-- C4 witness: a concrete tree whose single handler is a bare, empty
handler nested in a `try` statement. -/
theorem handler_yields_bounded_issues_witness :
    (checkHandler "f.py" []
        (Handler.mk 2 0 OptExpr.none StmtList.nil)).length ≤ 4 ∧
      ∀ t, countIssueType t
        (checkHandler "f.py" [] (Handler.mk 2 0 OptExpr.none StmtList.nil)) ≤ 1 :=
  handler_yields_bounded_issues "f.py" []
    (StmtList.cons
      (Stmt.tryStmt StmtList.nil
        (HandlerList.cons (Handler.mk 2 0 OptExpr.none StmtList.nil) HandlerList.nil)
        StmtList.nil StmtList.nil)
      StmtList.nil)
    (Handler.mk 2 0 OptExpr.none StmtList.nil)
    (by decide)

/-- For a handler whose declared filter is a bare name, emptiness and
pass-only-ness already imply the absence of any recovery signal, so
`_is_silent_handler` coincides with the negation of
`_has_logging_or_reraise`. -/
theorem isSilent_name_eq_not_signal (l c : Nat) (id : String) (b : StmtList) :
    isSilentHandler (.mk l c (.some (.name id)) b) =
      !(hasLoggingOrReraise (.mk l c (.some (.name id)) b)) := by
  cases b with
  | nil =>
    simp [isSilentHandler, isEmptyHandler, hasLoggingOrReraise, handlerHasSignal,
      optExprHasSignal, exprHasSignal, stmtListHasSignal]
  | cons s ss =>
    cases s with
    | pass =>
      cases ss with
      | nil =>
        simp [isSilentHandler, isEmptyHandler, isPassOnlyHandler,
          hasLoggingOrReraise, handlerHasSignal, optExprHasSignal, exprHasSignal,
          stmtListHasSignal, stmtHasSignal]
      | cons s2 ss2 =>
        simp [isSilentHandler, isEmptyHandler, isPassOnlyHandler]
    | exprStmt e => simp [isSilentHandler, isEmptyHandler, isPassOnlyHandler]
    | raiseStmt e => simp [isSilentHandler, isEmptyHandler, isPassOnlyHandler]
    | ret v => simp [isSilentHandler, isEmptyHandler, isPassOnlyHandler]
    | assign t v => simp [isSilentHandler, isEmptyHandler, isPassOnlyHandler]
    | ifStmt cnd bd o => simp [isSilentHandler, isEmptyHandler, isPassOnlyHandler]
    | whileStmt cnd bd o => simp [isSilentHandler, isEmptyHandler, isPassOnlyHandler]
    | forStmt t it bd o => simp [isSilentHandler, isEmptyHandler, isPassOnlyHandler]
    | funcDef nm bd => simp [isSilentHandler, isEmptyHandler, isPassOnlyHandler]
    | tryStmt bd hs o f => simp [isSilentHandler, isEmptyHandler, isPassOnlyHandler]

/-- C1: for every exception-handler node, a `BroadException` issue is
emitted exactly when the declared filter is the name `Exception` or
`BaseException` and no node anywhere in the handler subtree is a recovery
signal (a logging-attribute call, a `print` call, a `raise`, or a
`return`). -/
theorem broad_exception_iff_no_recovery_signal (fp : String)
    (sl : List String) (h : Handler) :
    hasIssueType "broad_exception" (checkHandler fp sl h) =
      (broadFilterName h && !(hasLoggingOrReraise h)) := by
  rw [checkHandler_eq, hasIssueType_append]
  have hbody : hasIssueType "broad_exception" (bodyCheckIssues fp sl h) = false := by
    rcases bodyCheckIssues_shape fp sl h with hb | ⟨j, hb, hbj | hbj⟩ <;>
      simp_all [hasIssueType_singleton, hasIssueType]
  rw [hbody, Bool.or_false]
  cases h with
  | mk l c t b =>
    cases t with
    | none =>
      simp [typeCheckIssues, hasIssueType_singleton, broadFilterName,
        hasIssueType]
    | some e =>
      cases e with
      | name id =>
        by_cases hid : id ∈ ["Exception", "BaseException"]
        · have hbf : broadFilterName (.mk l c (.some (.name id)) b) = true := by
            simp only [List.mem_cons, List.mem_singleton, List.not_mem_nil,
              or_false] at hid
            rcases hid with rfl | rfl <;> simp [broadFilterName]
          rw [hbf, Bool.true_and]
          by_cases hs : isSilentHandler (.mk l c (.some (.name id)) b)
          · have hsig := isSilent_name_eq_not_signal l c id b
            rw [hs] at hsig
            simp [typeCheckIssues, hid, hs, hasIssueType_singleton, ← hsig]
          · have hsig := isSilent_name_eq_not_signal l c id b
            have hs' : isSilentHandler (.mk l c (.some (.name id)) b) = false :=
              Bool.not_eq_true _ ▸ (by simpa using hs)
            rw [hs'] at hsig
            simp [typeCheckIssues, hid, hs', hasIssueType, ← hsig]
        · have hbf : broadFilterName (.mk l c (.some (.name id)) b) = false := by
            simp only [List.mem_cons, List.mem_singleton, List.not_mem_nil,
              or_false] at hid
            push_neg at hid
            simp [broadFilterName, beq_eq_false_iff_ne, hid.1, hid.2]
          rw [hbf, Bool.false_and]
          simp [typeCheckIssues, hid, hasIssueType]
      | attr v a => simp [typeCheckIssues, broadFilterName, hasIssueType]
      | call f args => simp [typeCheckIssues, broadFilterName, hasIssueType]
      | const => simp [typeCheckIssues, broadFilterName, hasIssueType]
      | lam bd => simp [typeCheckIssues, broadFilterName, hasIssueType]
      | listComp e its => simp [typeCheckIssues, broadFilterName, hasIssueType]

/-! ## The visitor classifies exactly the handler occurrences -/

mutual

theorem visitExpr_eq (fp : String) (sl : List String) :
    (e : Expr) → visitExpr fp sl e = checkAll fp sl (exprHandlers e)
  | .name id => rfl
  | .attr v a => by
    simp only [visitExpr, exprHandlers, visitExpr_eq fp sl v]
  | .call f args => by
    simp only [visitExpr, exprHandlers, visitExpr_eq fp sl f,
      visitExprList_eq fp sl args, checkAll_append]
  | .const => rfl
  | .lam b => by
    simp only [visitExpr, exprHandlers, visitExpr_eq fp sl b]
  | .listComp e its => by
    simp only [visitExpr, exprHandlers, visitExpr_eq fp sl e,
      visitExprList_eq fp sl its, checkAll_append]

theorem visitExprList_eq (fp : String) (sl : List String) :
    (es : ExprList) → visitExprList fp sl es = checkAll fp sl (exprListHandlers es)
  | .nil => rfl
  | .cons e es => by
    simp only [visitExprList, exprListHandlers, visitExpr_eq fp sl e,
      visitExprList_eq fp sl es, checkAll_append]

theorem visitOptExpr_eq (fp : String) (sl : List String) :
    (o : OptExpr) → visitOptExpr fp sl o = checkAll fp sl (optExprHandlers o)
  | .none => rfl
  | .some e => by
    simp only [visitOptExpr, optExprHandlers, visitExpr_eq fp sl e]

theorem visitStmt_eq (fp : String) (sl : List String) :
    (s : Stmt) → visitStmt fp sl s = checkAll fp sl (stmtHandlers s)
  | .exprStmt e => by
    simp only [visitStmt, stmtHandlers, visitExpr_eq fp sl e]
  | .pass => rfl
  | .raiseStmt e => by
    simp only [visitStmt, stmtHandlers, visitOptExpr_eq fp sl e]
  | .ret v => by
    simp only [visitStmt, stmtHandlers, visitOptExpr_eq fp sl v]
  | .assign t v => by
    simp only [visitStmt, stmtHandlers, visitExpr_eq fp sl t,
      visitExpr_eq fp sl v, checkAll_append]
  | .ifStmt c b o => by
    simp only [visitStmt, stmtHandlers, visitExpr_eq fp sl c,
      visitStmtList_eq fp sl b, visitStmtList_eq fp sl o, checkAll_append,
      List.append_assoc]
  | .whileStmt c b o => by
    simp only [visitStmt, stmtHandlers, visitExpr_eq fp sl c,
      visitStmtList_eq fp sl b, visitStmtList_eq fp sl o, checkAll_append,
      List.append_assoc]
  | .forStmt t it b o => by
    simp only [visitStmt, stmtHandlers, visitExpr_eq fp sl t,
      visitExpr_eq fp sl it, visitStmtList_eq fp sl b,
      visitStmtList_eq fp sl o, checkAll_append, List.append_assoc]
  | .funcDef nm b => by
    simp only [visitStmt, stmtHandlers, visitStmtList_eq fp sl b]
  | .tryStmt b hs o f => by
    simp only [visitStmt, stmtHandlers, visitStmtList_eq fp sl b,
      visitHandlerList_eq fp sl hs, visitStmtList_eq fp sl o,
      visitStmtList_eq fp sl f, checkAll_append, List.append_assoc]

theorem visitStmtList_eq (fp : String) (sl : List String) :
    (ss : StmtList) → visitStmtList fp sl ss = checkAll fp sl (stmtListHandlers ss)
  | .nil => rfl
  | .cons s ss => by
    simp only [visitStmtList, stmtListHandlers, visitStmt_eq fp sl s,
      visitStmtList_eq fp sl ss, checkAll_append]

theorem visitHandler_eq (fp : String) (sl : List String) :
    (h : Handler) → visitHandler fp sl h = checkAll fp sl (handlerHandlers h)
  | .mk l c t b => by
    simp only [visitHandler, handlerHandlers, visitOptExpr_eq fp sl t,
      visitStmtList_eq fp sl b, checkAll, checkAll_append]

theorem visitHandlerList_eq (fp : String) (sl : List String) :
    (hs : HandlerList) → visitHandlerList fp sl hs = checkAll fp sl (handlerListHandlers hs)
  | .nil => rfl
  | .cons h hs => by
    simp only [visitHandlerList, handlerListHandlers, visitHandler_eq fp sl h,
      visitHandlerList_eq fp sl hs, checkAll_append]

end

/-- C2: the visitor visits every exception-handler occurrence of a tree
exactly once, in pre-order, regardless of nesting depth: the issue list it
produces is exactly the concatenation of the per-node checks over the list
of handler occurrences of the tree (handlers nested inside other handlers,
functions, or comprehensions included), each occurrence contributing its
own independent classification once. -/
theorem visitor_visits_each_handler_once (fp : String) (sl : List String)
    (body : StmtList) :
    visitModule fp sl body = checkAll fp sl (stmtListHandlers body) :=
  visitStmtList_eq fp sl body

/-! ## Aggregation lemmas -/

theorem sortedDedup_perm_eq {A B : List String} (h : A.Perm B) :
    sortedDedup A = sortedDedup B := by
  apply List.eq_of_perm_of_sorted (r := pathLe)
  · exact (List.perm_insertionSort _ _).trans
      ((h.dedup).trans (List.perm_insertionSort _ _).symm)
  · exact List.sorted_insertionSort _ _
  · exact List.sorted_insertionSort _ _

theorem getFilesWithIssues_comm (A B : List SilentExceptionIssue) :
    getFilesWithIssues (A ++ B) = getFilesWithIssues (B ++ A) := by
  apply sortedDedup_perm_eq
  rw [List.map_append, List.map_append]
  exact List.perm_append_comm

theorem groupByFile_append (A B : List SilentExceptionIssue) (p : String) :
    groupByFile (A ++ B) p = groupByFile A p ++ groupByFile B p := by
  simp [groupByFile, List.filter_append]

theorem groupByFile_eq_nil (A : List SilentExceptionIssue) (a p : String)
    (hA : ∀ i ∈ A, i.file_path = a) (hp : p ≠ a) : groupByFile A p = [] := by
  simp only [groupByFile]
  rw [List.filter_eq_nil_iff]
  intro i hi
  have hfp := hA i hi
  simp only [beq_iff_eq, hfp]
  exact fun h => hp h.symm

/-- C5: merging the issues of two independently analyzed files is
commutative: the grouped per-file map, the sorted deduplicated
affected-file list, the total count and the per-type counts are the same
whichever file comes first, and no issue is dropped from its group. -/
theorem merge_issue_lists_commutative (A B : List SilentExceptionIssue)
    (a b : String)
    (hA : ∀ i ∈ A, i.file_path = a) (hB : ∀ i ∈ B, i.file_path = b)
    (hab : a ≠ b) :
    (∀ p, groupByFile (A ++ B) p = groupByFile (B ++ A) p) ∧
    getFilesWithIssues (A ++ B) = getFilesWithIssues (B ++ A) ∧
    (A ++ B).length = (B ++ A).length ∧
    (∀ t, countIssueType t (A ++ B) = countIssueType t (B ++ A)) ∧
    (∀ i ∈ A ++ B, i ∈ groupByFile (A ++ B) i.file_path) := by
  refine ⟨?_, getFilesWithIssues_comm A B, ?_, ?_, ?_⟩
  · intro p
    rw [groupByFile_append, groupByFile_append]
    by_cases hpa : p = a
    · have hBp : groupByFile B p = [] :=
        groupByFile_eq_nil B b p hB (by rw [hpa]; exact hab)
      rw [hBp]
      simp
    · have hAp : groupByFile A p = [] := groupByFile_eq_nil A a p hA hpa
      rw [hAp]
      simp
  · simp [List.length_append, Nat.add_comm]
  · intro t
    rw [countIssueType_append, countIssueType_append, Nat.add_comm]
  · intro i hi
    rw [groupByFile, List.mem_filter]
    exact ⟨hi, by simp⟩

/-- C5 witness: one issue in `a.py` and one in `b.py`. -/
theorem merge_issue_lists_commutative_witness :
    (∀ p, groupByFile
        ([{ file_path := "a.py", line_number := 3, column := 0,
            issue_type := "bare_except", description := "d",
            code_snippet := Option.none }] ++
         [{ file_path := "b.py", line_number := 5, column := 2,
            issue_type := "pass_only", description := "e",
            code_snippet := Option.none }]) p =
      groupByFile
        ([{ file_path := "b.py", line_number := 5, column := 2,
            issue_type := "pass_only", description := "e",
            code_snippet := Option.none }] ++
         [{ file_path := "a.py", line_number := 3, column := 0,
            issue_type := "bare_except", description := "d",
            code_snippet := Option.none }]) p) ∧
    getFilesWithIssues
        ([{ file_path := "a.py", line_number := 3, column := 0,
            issue_type := "bare_except", description := "d",
            code_snippet := Option.none }] ++
         [{ file_path := "b.py", line_number := 5, column := 2,
            issue_type := "pass_only", description := "e",
            code_snippet := Option.none }]) =
      getFilesWithIssues
        ([{ file_path := "b.py", line_number := 5, column := 2,
            issue_type := "pass_only", description := "e",
            code_snippet := Option.none }] ++
         [{ file_path := "a.py", line_number := 3, column := 0,
            issue_type := "bare_except", description := "d",
            code_snippet := Option.none }]) ∧
    (([{ file_path := "a.py", line_number := 3, column := 0,
         issue_type := "bare_except", description := "d",
         code_snippet := Option.none }] : List SilentExceptionIssue) ++
     ([{ file_path := "b.py", line_number := 5, column := 2,
         issue_type := "pass_only", description := "e",
         code_snippet := Option.none }] : List SilentExceptionIssue)).length =
      (([{ file_path := "b.py", line_number := 5, column := 2,
           issue_type := "pass_only", description := "e",
           code_snippet := Option.none }] : List SilentExceptionIssue) ++
       ([{ file_path := "a.py", line_number := 3, column := 0,
           issue_type := "bare_except", description := "d",
           code_snippet := Option.none }] : List SilentExceptionIssue)).length ∧
    (∀ t, countIssueType t
        ([{ file_path := "a.py", line_number := 3, column := 0,
            issue_type := "bare_except", description := "d",
            code_snippet := Option.none }] ++
         [{ file_path := "b.py", line_number := 5, column := 2,
            issue_type := "pass_only", description := "e",
            code_snippet := Option.none }]) =
      countIssueType t
        ([{ file_path := "b.py", line_number := 5, column := 2,
            issue_type := "pass_only", description := "e",
            code_snippet := Option.none }] ++
         [{ file_path := "a.py", line_number := 3, column := 0,
            issue_type := "bare_except", description := "d",
            code_snippet := Option.none }])) ∧
    (∀ i ∈ (([{ file_path := "a.py", line_number := 3, column := 0,
                issue_type := "bare_except", description := "d",
                code_snippet := Option.none }] : List SilentExceptionIssue) ++
            [{ file_path := "b.py", line_number := 5, column := 2,
               issue_type := "pass_only", description := "e",
               code_snippet := Option.none }]),
      i ∈ groupByFile
        ([{ file_path := "a.py", line_number := 3, column := 0,
            issue_type := "bare_except", description := "d",
            code_snippet := Option.none }] ++
         [{ file_path := "b.py", line_number := 5, column := 2,
            issue_type := "pass_only", description := "e",
            code_snippet := Option.none }]) i.file_path) :=
  merge_issue_lists_commutative _ _ "a.py" "b.py"
    (by decide) (by decide) (by decide)

/-! ## Rendering lemmas -/

theorem sortByLine_perm (l : List SilentExceptionIssue) :
    (sortByLine l).Perm l := List.perm_insertionSort _ _

theorem sortByLine_sorted (l : List SilentExceptionIssue) :
    List.Pairwise lineLe (sortByLine l) := List.sorted_insertionSort _ _

theorem mem_groupByFile_path (issues : List SilentExceptionIssue) (p : String)
    (i : SilentExceptionIssue) (hi : i ∈ groupByFile issues p) :
    i.file_path = p := by
  rw [groupByFile, List.mem_filter] at hi
  exact beq_iff_eq.mp hi.2

theorem mem_sortByLine_groupByFile_path (issues : List SilentExceptionIssue)
    (p : String) (i : SilentExceptionIssue)
    (hi : i ∈ sortByLine (groupByFile issues p)) : i.file_path = p :=
  mem_groupByFile_path issues p i ((sortByLine_perm _).mem_iff.mp hi)

theorem getFilesWithIssues_sorted (issues : List SilentExceptionIssue) :
    List.Pairwise pathLe (getFilesWithIssues issues) :=
  List.sorted_insertionSort _ _

theorem getFilesWithIssues_nodup (issues : List SilentExceptionIssue) :
    (getFilesWithIssues issues).Nodup :=
  (List.perm_insertionSort pathLe _).symm.nodup
    (List.nodup_dedup _)

theorem getFilesWithIssues_pairwise_lt (issues : List SilentExceptionIssue) :
    List.Pairwise (fun p q : String => p < q) (getFilesWithIssues issues) := by
  have h1 := getFilesWithIssues_sorted issues
  have h2 := getFilesWithIssues_nodup issues
  exact (h1.and h2).imp (fun hpq => lt_of_le_of_ne hpq.1 hpq.2)

/-- The issue sequence of the rendered report is sorted by file path, then
line number. -/
theorem renderedOrder_pairwise (issues : List SilentExceptionIssue) :
    List.Pairwise pathLineOrder (renderedOrder issues) := by
  rw [renderedOrder, List.pairwise_flatten]
  constructor
  · intro l' hl'
    rw [List.mem_map] at hl'
    obtain ⟨p, hp, rfl⟩ := hl'
    refine List.Pairwise.imp_of_mem ?_ (sortByLine_sorted (groupByFile issues p))
    intro x y hx hy hxy
    exact Or.inr ⟨by
      rw [mem_sortByLine_groupByFile_path issues p x hx,
        mem_sortByLine_groupByFile_path issues p y hy], hxy⟩
  · rw [List.pairwise_map]
    refine (getFilesWithIssues_pairwise_lt issues).imp ?_
    intro p q hpq x hx y hy
    exact Or.inl (by
      rw [mem_sortByLine_groupByFile_path issues p x hx,
        mem_sortByLine_groupByFile_path issues q y hy]
      exact hpq)

/-- The grouped per-file map only depends on the merged multiset when the
two files are distinct. -/
theorem groupByFile_comm (A B : List SilentExceptionIssue) (a b : String)
    (hA : ∀ i ∈ A, i.file_path = a) (hB : ∀ i ∈ B, i.file_path = b)
    (hab : a ≠ b) (p : String) :
    groupByFile (A ++ B) p = groupByFile (B ++ A) p := by
  rw [groupByFile_append, groupByFile_append]
  by_cases hpa : p = a
  · have hBp : groupByFile B p = [] :=
      groupByFile_eq_nil B b p hB (by rw [hpa]; exact hab)
    rw [hBp]
    simp
  · have hAp : groupByFile A p = [] := groupByFile_eq_nil A a p hA hpa
    rw [hAp]
    simp

theorem summarySection_comm (A B : List SilentExceptionIssue) :
    summarySection (A ++ B) = summarySection (B ++ A) := by
  have hsd : sortedDedup ((A ++ B).map (fun i => i.issue_type)) =
      sortedDedup ((B ++ A).map (fun i => i.issue_type)) := by
    apply sortedDedup_perm_eq
    rw [List.map_append, List.map_append]
    exact List.perm_append_comm
  rw [summarySection, summarySection, hsd]
  refine congrArg _ (List.map_congr_left ?_)
  intro t ht
  rw [countIssueType_append, countIssueType_append, Nat.add_comm]

/-- C6: in the rendered report, issues are ordered within each file
ascending by line and files are ordered lexicographically by path, and the
sorting happens at render time: merging the two files' issues in either
order yields the same rendered order and the same report text. -/
theorem report_sorted_at_render_time (A B : List SilentExceptionIssue)
    (a b : String) (ss : Bool)
    (hA : ∀ i ∈ A, i.file_path = a) (hB : ∀ i ∈ B, i.file_path = b)
    (hab : a ≠ b) :
    (∀ issues : List SilentExceptionIssue,
      List.Pairwise pathLineOrder (renderedOrder issues)) ∧
    renderedOrder (A ++ B) = renderedOrder (B ++ A) ∧
    formatIssueReport (A ++ B) ss = formatIssueReport (B ++ A) ss := by
  have hgroup := groupByFile_comm A B a b hA hB hab
  have hfiles := getFilesWithIssues_comm A B
  have hlen : (A ++ B).length = (B ++ A).length := by
    simp [List.length_append, Nat.add_comm]
  refine ⟨renderedOrder_pairwise, ?_, ?_⟩
  · rw [renderedOrder, renderedOrder, hfiles]
    refine congrArg _ (List.map_congr_left ?_)
    intro p hp
    rw [hgroup p]
  · have hfs : ∀ p, fileSection ss (A ++ B) p = fileSection ss (B ++ A) p := by
      intro p
      rw [fileSection, fileSection, hgroup p]
    rw [formatIssueReport, formatIssueReport, hlen, hfiles,
      summarySection_comm A B]
    refine congrArg _ ?_
    refine congrArg
      (fun x => String.intercalate "\n"
        (("🚨 Found " ++ toString (B ++ A).length ++
            " silent exception handling issues:\n") ::
          (List.flatten x ++ summarySection (B ++ A))))
      (List.map_congr_left ?_)
    intro p hp
    rw [hfs p]

/-- C6 witness: one issue in `x.py` and one in `y.py`. -/
theorem report_sorted_at_render_time_witness :
    (∀ issues : List SilentExceptionIssue,
      List.Pairwise pathLineOrder (renderedOrder issues)) ∧
    renderedOrder
        ([{ file_path := "x.py", line_number := 1, column := 0,
            issue_type := "empty_except", description := "d",
            code_snippet := Option.none }] ++
         [{ file_path := "y.py", line_number := 9, column := 4,
            issue_type := "broad_exception", description := "e",
            code_snippet := Option.none }]) =
      renderedOrder
        ([{ file_path := "y.py", line_number := 9, column := 4,
            issue_type := "broad_exception", description := "e",
            code_snippet := Option.none }] ++
         [{ file_path := "x.py", line_number := 1, column := 0,
            issue_type := "empty_except", description := "d",
            code_snippet := Option.none }]) ∧
    formatIssueReport
        ([{ file_path := "x.py", line_number := 1, column := 0,
            issue_type := "empty_except", description := "d",
            code_snippet := Option.none }] ++
         [{ file_path := "y.py", line_number := 9, column := 4,
            issue_type := "broad_exception", description := "e",
            code_snippet := Option.none }]) true =
      formatIssueReport
        ([{ file_path := "y.py", line_number := 9, column := 4,
            issue_type := "broad_exception", description := "e",
            code_snippet := Option.none }] ++
         [{ file_path := "x.py", line_number := 1, column := 0,
            issue_type := "empty_except", description := "d",
            code_snippet := Option.none }]) true :=
  report_sorted_at_render_time _ _ "x.py" "y.py" true
    (by decide) (by decide) (by decide)

/-! ## Exit status, parse failures, and the parallel-fix plan -/

/-- C7: in every output mode the argument passed to the process exit is
the total number of issues found, so a zero status means a clean run. -/
theorem exit_status_equals_issue_count (args : CliArgs)
    (issues : List SilentExceptionIssue) :
    (runMain args issues).2 = issues.length ∧
    ((runMain args issues).2 = 0 ↔ issues = []) := by
  have hlen : (runMain args issues).2 = issues.length := by
    by_cases h1 : args.filesOnly = true <;>
      by_cases h2 : args.parallelFix = true <;>
        by_cases h3 : args.jsonMode = true <;>
          simp [runMain, h1, h2, h3]
  exact ⟨hlen, by rw [hlen, List.length_eq_zero]⟩

theorem analyzeBatch_append (xs ys : List FileInput) :
    analyzeBatch (xs ++ ys) =
      ((analyzeBatch xs).1 ++ (analyzeBatch ys).1,
       (analyzeBatch xs).2 ++ (analyzeBatch ys).2) := by
  induction xs with
  | nil => simp [analyzeBatch]
  | cons f t ih => simp [analyzeBatch, ih]

/-- C8: a file that fails to parse contributes no issues, only the
parse-error diagnostic on the error stream, and the remaining files of the
batch are analyzed exactly as if the failing file were absent. -/
theorem parse_failure_is_isolated (p : String) (src : List String)
    (msg : String) (pre post : List FileInput) :
    analyzeFile ⟨p, src, ParseOutcome.failed msg⟩ =
      ([], ["Syntax error in " ++ p ++ ": " ++ msg]) ∧
    (analyzeBatch (pre ++ ⟨p, src, ParseOutcome.failed msg⟩ :: post)).1 =
      (analyzeBatch pre).1 ++ (analyzeBatch post).1 ∧
    (analyzeBatch (pre ++ ⟨p, src, ParseOutcome.failed msg⟩ :: post)).2 =
      (analyzeBatch pre).2 ++
        ("Syntax error in " ++ p ++ ": " ++ msg) :: (analyzeBatch post).2 := by
  refine ⟨rfl, ?_, ?_⟩ <;>
    simp [analyzeBatch_append, analyzeBatch, analyzeFile]

/-- C9: the `--parallel-fix` output recommends parallel remediation
exactly when more than five files are affected, sequential remediation
exactly when between one and five files are affected, and reports that no
files need fixing exactly when no file is affected. -/
theorem parallel_fix_recommendation (issues : List SilentExceptionIssue) :
    (("Execute with parallel agents for faster fixing" ∈ parallelFixLines issues) ↔
      5 < (getFilesWithIssues issues).length) ∧
    (("Small number of files can be fixed sequentially" ∈ parallelFixLines issues) ↔
      (0 < (getFilesWithIssues issues).length ∧
        (getFilesWithIssues issues).length ≤ 5)) ∧
    (("\n✅ No files need fixing!" ∈ parallelFixLines issues) ↔
      (getFilesWithIssues issues).length = 0) := by
  have hdrC : charAt ("Found " ++ toString issues.length ++ " issues in " ++
      toString (getFilesWithIssues issues).length ++ " files:") 0 =
      Option.some (Char.ofNat 70) := by
    rw [charAt, strDataAppend, strDataAppend, strDataAppend, strDataAppend]
    rfl
  have mapC : ∀ f : String, charAt ("  " ++ f) 0 = Option.some (Char.ofNat 32) := by
    intro f
    rw [charAt, strDataAppend]
    rfl
  have plC : charAt ("\n🚀 Parallel fix recommended for " ++
      toString (getFilesWithIssues issues).length ++ " files") 1 =
      Option.some (Char.ofNat 128640) := by
    rw [charAt, strDataAppend, strDataAppend]
    rfl
  have plC0 : charAt ("\n🚀 Parallel fix recommended for " ++
      toString (getFilesWithIssues issues).length ++ " files") 0 =
      Option.some (Char.ofNat 10) := by
    rw [charAt, strDataAppend, strDataAppend]
    rfl
  have slC3 : charAt ("\n✅ Sequential fix recommended for " ++
      toString (getFilesWithIssues issues).length ++ " files") 3 =
      Option.some (Char.ofNat 83) := by
    rw [charAt, strDataAppend, strDataAppend]
    rfl
  have slC0 : charAt ("\n✅ Sequential fix recommended for " ++
      toString (getFilesWithIssues issues).length ++ " files") 0 =
      Option.some (Char.ofNat 10) := by
    rw [charAt, strDataAppend, strDataAppend]
    rfl
  refine ⟨?_, ?_, ?_⟩
  · have h1 : ¬("Execute with parallel agents for faster fixing" =
        "Found " ++ toString issues.length ++ " issues in " ++
        toString (getFilesWithIssues issues).length ++ " files:") :=
      ne_of_charAt_ne _ _ 0 (Char.ofNat 69) (Char.ofNat 70) rfl hdrC (by decide)
    have h2 : ∀ f : String,
        ¬("  " ++ f = "Execute with parallel agents for faster fixing") :=
      fun f => ne_of_charAt_ne _ _ 0 (Char.ofNat 32) (Char.ofNat 69)
        (mapC f) rfl (by decide)
    by_cases h5 : (getFilesWithIssues issues).length > 5
    · simp [parallelFixLines, h5, h1, h2]
    · by_cases h0 : (getFilesWithIssues issues).length > 0
      · have h3 : ¬("Execute with parallel agents for faster fixing" =
            "\n✅ Sequential fix recommended for " ++
            toString (getFilesWithIssues issues).length ++ " files") :=
          ne_of_charAt_ne _ _ 0 (Char.ofNat 69) (Char.ofNat 10) rfl slC0 (by decide)
        have h4 : ¬("Execute with parallel agents for faster fixing" =
            "Small number of files can be fixed sequentially") := by decide
        simp [parallelFixLines, h5, h0, h1, h2, h3, h4]
      · have h4 : ¬("Execute with parallel agents for faster fixing" =
            "\n✅ No files need fixing!") := by decide
        simp [parallelFixLines, h5, h0, h1, h2, h4]
  · have h1 : ¬("Small number of files can be fixed sequentially" =
        "Found " ++ toString issues.length ++ " issues in " ++
        toString (getFilesWithIssues issues).length ++ " files:") :=
      ne_of_charAt_ne _ _ 0 (Char.ofNat 83) (Char.ofNat 70) rfl hdrC (by decide)
    have h2 : ∀ f : String,
        ¬("  " ++ f = "Small number of files can be fixed sequentially") :=
      fun f => ne_of_charAt_ne _ _ 0 (Char.ofNat 32) (Char.ofNat 83)
        (mapC f) rfl (by decide)
    by_cases h5 : (getFilesWithIssues issues).length > 5
    · have h3 : ¬("Small number of files can be fixed sequentially" =
          "\n🚀 Parallel fix recommended for " ++
          toString (getFilesWithIssues issues).length ++ " files") :=
        ne_of_charAt_ne _ _ 0 (Char.ofNat 83) (Char.ofNat 10) rfl plC0 (by decide)
      have h4 : ¬("Small number of files can be fixed sequentially" =
          "Execute with parallel agents for faster fixing") := by decide
      simp [parallelFixLines, h5, h1, h2, h3, h4]
    · by_cases h0 : (getFilesWithIssues issues).length > 0
      · simp [parallelFixLines, h5, h0, h1, h2]
        omega
      · have h4 : ¬("Small number of files can be fixed sequentially" =
            "\n✅ No files need fixing!") := by decide
        simp [parallelFixLines, h5, h0, h1, h2, h4]
  · have h1 : ¬("\n✅ No files need fixing!" =
        "Found " ++ toString issues.length ++ " issues in " ++
        toString (getFilesWithIssues issues).length ++ " files:") :=
      ne_of_charAt_ne _ _ 0 (Char.ofNat 10) (Char.ofNat 70) rfl hdrC (by decide)
    have h2 : ∀ f : String,
        ¬("  " ++ f = "\n✅ No files need fixing!") :=
      fun f => ne_of_charAt_ne _ _ 0 (Char.ofNat 32) (Char.ofNat 10)
        (mapC f) rfl (by decide)
    by_cases h5 : (getFilesWithIssues issues).length > 5
    · have h3 : ¬("\n✅ No files need fixing!" =
          "\n🚀 Parallel fix recommended for " ++
          toString (getFilesWithIssues issues).length ++ " files") :=
        ne_of_charAt_ne _ _ 1 (Char.ofNat 9989) (Char.ofNat 128640) rfl plC (by decide)
      have h4 : ¬("\n✅ No files need fixing!" =
          "Execute with parallel agents for faster fixing") := by decide
      simp [parallelFixLines, h5, h1, h2, h3, h4]
      intro he
      rw [he] at h5
      simp at h5
    · by_cases h0 : (getFilesWithIssues issues).length > 0
      · have h3 : ¬("\n✅ No files need fixing!" =
            "\n✅ Sequential fix recommended for " ++
            toString (getFilesWithIssues issues).length ++ " files") :=
          ne_of_charAt_ne _ _ 3 (Char.ofNat 78) (Char.ofNat 83) rfl slC3 (by decide)
        have h4 : ¬("\n✅ No files need fixing!" =
            "Small number of files can be fixed sequentially") := by decide
        simp [parallelFixLines, h5, h0, h1, h2, h3, h4]
        intro he
        rw [he] at h0
        simp at h0
      · simp [parallelFixLines, h5, h0, h1, h2]
        have hz : (getFilesWithIssues issues).length = 0 := by omega
        exact List.length_eq_zero.mp hz
